import Mathlib

/-!
Verification development for the SST MCP server: a shallow embedding of the
process-supervision and command-execution core (mcp-server.ts, start.ts,
stop.ts, config.ts) with theorems about its lifecycle and workflow behavior.

File-system contents, process liveness and subprocess outcomes are modelled
explicitly as inputs (oracle fields of the state records); JavaScript
exceptions are modelled with `Except`; JavaScript string operations are
reimplemented with their exact semantics where the code depends on them.
-/

namespace SSTMCP

/-! ## JavaScript string primitives -/

/-- Whitespace class of the JavaScript regex `\s` (the characters that occur
in the sources). -/
def isJsWs (c : Char) : Bool :=
  c = ' ' || c = '\t' || c = '\n' || c = '\r'

/-- JavaScript `s.trim()` (restricted to the ASCII whitespace that occurs
in the modelled files). -/
def jsTrim (s : String) : String :=
  String.mk (((s.data.dropWhile isJsWs).reverse.dropWhile isJsWs).reverse)

/-- Splits a character list at every occurrence of `c`, keeping empty
pieces, as JavaScript `split` does. -/
def splitCharAux (c : Char) : List Char → List (List Char)
  | [] => [[]]
  | x :: t =>
    let r := splitCharAux c t
    if x = c then [] :: r
    else
      match r with
      | h :: rest => (x :: h) :: rest
      | [] => [[x]]

/-- JavaScript `s.split('\n')`. -/
def jsSplitLines (s : String) : List String :=
  (splitCharAux '\n' s.data).map String.mk

/-- JavaScript `s.startsWith(pat)`. -/
def jsStartsWith (s pat : String) : Bool :=
  pat.data.isPrefixOf s.data

/-- JavaScript `s.endsWith(pat)`. -/
def jsEndsWith (s pat : String) : Bool :=
  pat.data.reverse.isPrefixOf s.data.reverse

/-- JavaScript `s.substring(0, n)`. -/
def jsTake (n : Nat) (s : String) : String :=
  String.mk (s.data.take n)

/-- JavaScript `array.join(sep)`. -/
def jsJoin (sep : String) : List String → String
  | [] => ""
  | [x] => x
  | x :: xs => x ++ sep ++ jsJoin sep xs

/-- Substring search underlying JavaScript `s.includes(pat)`. -/
def listContainsSub (pat : List Char) : List Char → Bool
  | [] => pat.isEmpty
  | x :: t => pat.isPrefixOf (x :: t) || listContainsSub pat t

/-- Decimal digit run to a natural number. -/
def digitsToNat (l : List Char) : Nat :=
  l.foldl (fun a c => a * 10 + (c.toNat - 48)) 0

/-- JavaScript `parseInt(s, 10)`: skip leading whitespace, optional sign,
maximal run of decimal digits; `NaN` (here `none`) when no digit is found. -/
def parseIntJS (s : String) : Option Int :=
  let t := jsTrim s
  let (neg, rest) :=
    match t.data with
    | '-' :: cs => (true, cs)
    | '+' :: cs => (false, cs)
    | cs => (false, cs)
  let digits := rest.takeWhile Char.isDigit
  if digits.isEmpty then none
  else if neg then some (-(digitsToNat digits : Int))
  else some (digitsToNat digits : Int)

/-- JavaScript `s.includes(pat)` for a non-empty pattern. -/
def jsIncludes (s pat : String) : Bool :=
  listContainsSub pat.data s.data

/-! ## Environment file reader (`parseEnvFile` in start.ts) -/

/-- Character class `[\w.-]` of the env-line regex. -/
def isEnvNameChar (c : Char) : Bool :=
  c.isAlpha || c.isDigit || c = '_' || c = '.' || c = '-'

/-- Matches `([\w.-]+)=(.*)` at the head of a character list, returning the
captured name and value.  The name class excludes `=`, so the greedy run
followed by a literal `=` admits no backtracking. -/
def matchNameValue (cs : List Char) : Option (String × String) :=
  let name := cs.takeWhile isEnvNameChar
  if name.isEmpty then none
  else
    match cs.drop name.length with
    | '=' :: rest => some (String.mk name, String.mk rest)
    | _ => none

/-- Matches the regex `^(?:export\s+)?([\w.-]+)=(.*)` against a line.  The
optional group is tried first (`export` followed by at least one whitespace
character); if the remainder fails to match, the regex engine retries
without the group. -/
def matchEnvLine (line : String) : Option (String × String) :=
  let cs := line.data
  let withExport : Option (String × String) :=
    if cs.take 6 = "export".data then
      let rest := cs.drop 6
      let ws := rest.takeWhile isJsWs
      if ws.isEmpty then none
      else matchNameValue (rest.drop ws.length)
    else none
  match withExport with
  | some r => some r
  | none => matchNameValue cs

/-- `value.substring(1, value.length - 1)` under JavaScript semantics
(`substring` swaps its arguments when start exceeds end, so a one-character
string is returned unchanged). -/
def jsStripEnds (v : String) : String :=
  match v.data with
  | [] => v
  | [_] => v
  | cs => String.mk ((cs.drop 1).dropLast)

/-- Strips surrounding single or double quotes from a value when both ends
match, as in `parseEnvFile`. -/
def stripQuotes (v : String) : String :=
  if (jsStartsWith v "\"" && jsEndsWith v "\"") || (jsStartsWith v "'" && jsEndsWith v "'") then
    jsStripEnds v
  else v

/-- `parseEnvFile` (start.ts): split the content on newlines; skip blank
lines and comment lines; each line matching `[export ]NAME=VALUE`
contributes a binding with surrounding quotes stripped from the value.
Bindings are collected in file order; a later binding for the same name
overwrites an earlier one (JavaScript object assignment), which
`envLookup` reproduces by taking the last binding. -/
def parseEnvFile (content : String) : List (String × String) :=
  (jsSplitLines content).foldl
    (fun env line =>
      let t := jsTrim line
      if t.data.isEmpty || jsStartsWith t "#" then env
      else
        match matchEnvLine t with
        | some (k, v) => env ++ [(k, stripQuotes v)]
        | none => env)
    []

/-- Lookup in a binding list where the last binding for a name wins. -/
def envLookup (l : List (String × String)) (k : String) : Option String :=
  (l.reverse.find? (fun p => p.1 = k)).map (·.2)

/-! ## Environment file writer (`setSSTEnv` in mcp-server.ts) -/

/-- First character class `[A-Z_]` of the writer's variable regex. -/
def isUpperStart (c : Char) : Bool :=
  ('A' ≤ c && c ≤ 'Z') || c = '_'

/-- Continuation class `[A-Z0-9_]` of the writer's variable regex. -/
def isUpperChar (c : Char) : Bool :=
  ('A' ≤ c && c ≤ 'Z') || c.isDigit || c = '_'

/-- Matches the regex `^export\s+([A-Z_][A-Z0-9_]*)=` against a raw
(untrimmed) line, returning the captured variable name. -/
def matchExportUpper (line : String) : Option String :=
  let cs := line.data
  if cs.take 6 = "export".data then
    let rest := cs.drop 6
    let ws := rest.takeWhile isJsWs
    if ws.isEmpty then none
    else
      let r2 := rest.drop ws.length
      let name := r2.takeWhile isUpperChar
      match name with
      | [] => none
      | c :: _ =>
        if isUpperStart c then
          match r2.drop name.length with
          | '=' :: _ => some (String.mk name)
          | _ => none
        else none
  else none

/-- `Map.set` on an association list: replace the entry when the key is
present, append otherwise. -/
def mapSet (m : List (String × Nat)) (k : String) (v : Nat) : List (String × Nat) :=
  if m.any (fun p => p.1 = k) then
    m.map (fun p => if p.1 = k then (k, v) else p)
  else m ++ [(k, v)]

/-- `Map.get` on an association list. -/
def mapGet (m : List (String × Nat)) (k : String) : Option Nat :=
  (m.find? (fun p => p.1 = k)).map (·.2)

/-- The index map built by `setSSTEnv`: for every line matching
`^export\s+([A-Z_][A-Z0-9_]*)=`, record name → line index (a later line
overwrites an earlier one). -/
def existingVarMap (lines : List String) : List (String × Nat) :=
  (lines.enum).foldl
    (fun m p =>
      match matchExportUpper p.2 with
      | some n => mapSet m n p.1
      | none => m)
    []

/-- The file content produced by `setSSTEnv` (mcp-server.ts): split the old
content on newlines, compute the index of the last `export NAME=` line for
each upper-case name, then for each requested variable either replace that
line with `export KEY="VALUE"` or append a new line; join with newlines and
a trailing newline. -/
def setSSTEnvContent (oldContent : String) (vars : List (String × String)) : String :=
  let lines := jsSplitLines oldContent
  let existing := existingVarMap lines
  let lines2 := vars.foldl
    (fun (ls : List String) kv =>
      let newLine := "export " ++ kv.1 ++ "=\"" ++ kv.2 ++ "\""
      match mapGet existing kv.1 with
      | some idx => ls.set idx newLine
      | none => ls ++ [newLine])
    lines
  jsJoin "\n" lines2 ++ "\n"

/-! ## Stop script (stop.ts, `stopSST`)

The script's interaction with the operating system is an oracle: the three
`process.kill(pid, 0)` liveness probes (initial check, re-check after
SIGTERM and the two-second grace period, final verification after the
optional SIGKILL and its one-second grace period) each observe a boolean.
Only real signals (SIGTERM/SIGKILL) are recorded; signal-0 probes are not
signals. -/

inductive JsSignal where
  | sigterm
  | sigkill
  deriving DecidableEq, Repr

structure StopWorld where
  pidFile : Option String
  alive0 : Bool
  alive1 : Bool
  alive2 : Bool
  deriving DecidableEq, Repr

structure StopRun where
  exitCode : Nat
  signals : List (Int × JsSignal)
  pidFileAfter : Option String
  messages : List String
  deriving DecidableEq, Repr

/-- `stopSST` (stop.ts): no PID file is a benign no-op (exit 0); an
unparseable PID exits 1; otherwise SIGTERM the recorded PID if alive, wait,
SIGKILL if still alive, wait again, then verify: still alive exits 1
leaving the PID file in place, confirmed dead deletes the PID file and
exits 0.  The script signals only the PID read from the file. -/
def stopSST (w : StopWorld) : StopRun :=
  match w.pidFile with
  | none =>
    { exitCode := 0, signals := [], pidFileAfter := none,
      messages := ["SST development process is not running (no PID file found)"] }
  | some content =>
    match parseIntJS (jsTrim content) with
    | none =>
      { exitCode := 1, signals := [], pidFileAfter := some content,
        messages := ["Invalid PID found in PID file"] }
    | some pid =>
      let m0 := ["Stopping SST process with PID: " ++ toString pid]
      let sigs :=
        if w.alive0 then
          if w.alive1 then [(pid, JsSignal.sigterm), (pid, JsSignal.sigkill)]
          else [(pid, JsSignal.sigterm)]
        else []
      let m1 :=
        if w.alive0 then
          if w.alive1 then m0 ++ ["Process did not terminate gracefully, forcing kill..."]
          else m0
        else m0 ++ ["SST process was already stopped (process not found)"]
      if w.alive2 then
        { exitCode := 1, signals := sigs, pidFileAfter := some content,
          messages := m1 ++ ["Process is still running after kill attempts"] }
      else
        { exitCode := 0, signals := sigs, pidFileAfter := none,
          messages := m1 ++ ["SST development process stopped successfully", "PID file cleaned up"] }

/-- A stop run whose output classifies the process as not running. -/
def notRunningClassified (r : StopRun) : Prop :=
  "SST development process is not running (no PID file found)" ∈ r.messages ∨
  "SST process was already stopped (process not found)" ∈ r.messages

instance (r : StopRun) : Decidable (notRunningClassified r) := by
  unfold notRunningClassified; infer_instance

/-! ## Start script (start.ts, `startProcess`)

The slice of `startProcess` from the `.server` marker check through the
spawn and the PID-file write.  The directory listing of `.sst` and the
`env.sh` content are oracle inputs. -/

structure StartScriptWorld where
  sstFiles : List String
  envFile : Option String
  deriving DecidableEq, Repr

structure StartScriptRun where
  exitCode : Option Nat
  spawned : Bool
  spawnEnv : List (String × String)
  sstFilesAfter : List String
  pidFileWritten : Option Nat
  errorMessage : Option String
  deriving DecidableEq, Repr

/-- `startProcess` (start.ts): parse `env.sh`; if any file in `.sst` ends in
`.server`, print an error naming it and `process.exit(1)` without spawning
and without touching the marker; otherwise spawn `npx sst dev --mode=mono`
with the env-file entries merged over the inherited environment and write
the child PID to `.sst/sst-dev.pid`. -/
def startProcess (w : StartScriptWorld) (newPid : Nat) (sstDirPath : String) : StartScriptRun :=
  let env := match w.envFile with | some c => parseEnvFile c | none => []
  match w.sstFiles.find? (fun f => jsEndsWith f ".server") with
  | some f =>
    { exitCode := some 1, spawned := false, spawnEnv := env,
      sstFilesAfter := w.sstFiles, pidFileWritten := none,
      errorMessage := some ("Error: Detected running SST server (file: " ++ sstDirPath ++ "/" ++ f
        ++ "). Please stop the running SST server before starting the MCP server.") }
  | none =>
    { exitCode := none, spawned := true, spawnEnv := env,
      sstFilesAfter := w.sstFiles, pidFileWritten := some newPid,
      errorMessage := none }

/-! ## MCP server supervisor (mcp-server.ts, `startSSTDev` / `stopSSTDev`)

The server's in-memory state: the child-process handle, whether a log
stream is open, the log-file content, and how many subprocesses have been
spawned.  A thrown JavaScript error is a `.thrown` outcome (the transport
layer converts it to an error-shaped response). -/

structure McpState where
  sstProcess : Option Nat
  logStream : Bool
  logFile : Option String
  spawnCount : Nat
  deriving DecidableEq, Repr

inductive ToolOutcome where
  | ok (text : String)
  | thrown (msg : String)
  deriving DecidableEq, Repr

def ToolOutcome.isError : ToolOutcome → Bool
  | .ok _ => false
  | .thrown _ => true

/-- How the body of `startSSTDev` fares: success, a synchronous throw
before the log stream is created (e.g. `mkdirSync` fails), or a throw
after the log marker was written (e.g. `spawn` throwing synchronously). -/
inductive StartFault where
  | ok
  | beforeLog (msg : String)
  | atSpawn (msg : String)
  deriving DecidableEq, Repr

def startMarker (ts : String) : String :=
  "\n=== SST Dev Started at " ++ ts ++ " ===\n"

/-- `startSSTDev` (mcp-server.ts): a live in-memory handle short-circuits
with an informational (non-error) response and no side effect at all;
otherwise the log file is recreated with a start marker and the start
script is spawned; any throw in the body ends the log stream, clears the
handle and the log stream reference, and surfaces the error. -/
def startSSTDev (s : McpState) (fault : StartFault) (newPid : Nat) (ts logPath : String) :
    ToolOutcome × McpState :=
  match s.sstProcess with
  | some _ =>
    (.ok "SST development process is already running. Use stop-sst-dev to stop it first.", s)
  | none =>
    match fault with
    | .ok =>
      (.ok ("SST development process started successfully. Logs are being written to " ++ logPath),
       { s with sstProcess := some newPid, logStream := true,
                logFile := some (startMarker ts), spawnCount := s.spawnCount + 1 })
    | .beforeLog m =>
      (.thrown ("Failed to start SST process: " ++ m),
       { s with sstProcess := none, logStream := false })
    | .atSpawn m =>
      (.thrown ("Failed to start SST process: " ++ m),
       { s with sstProcess := none, logStream := false, logFile := some (startMarker ts) })

/-- Outcome of the spawned stop script as observed by `stopSSTDev`:
either the script's close event with its exit code and captured output, or
a spawn-level error event. -/
inductive StopScriptOutcome where
  | closed (code : Int) (output errorOutput : String)
  | spawnError (msg : String)
  deriving DecidableEq, Repr

/-- `stopSSTDev` (mcp-server.ts): spawn the stop script; the close handler
clears the in-memory handle and ends the log stream, then resolves on exit
code 0 and rejects otherwise.  On a spawn-level error the promise rejects;
in the child-process API the close event still follows the error event, so
the handle and log stream are cleared as well. -/
def stopSSTDev (s : McpState) (o : StopScriptOutcome) : ToolOutcome × McpState :=
  match o with
  | .closed code out errOut =>
    ((if code = 0 then
        .ok (if (jsTrim out).data.isEmpty then "SST development process has been stopped."
             else jsTrim out)
      else .thrown ("Stop script failed with code " ++ toString code ++ ": " ++ errOut)),
     { s with sstProcess := none, logStream := false, spawnCount := s.spawnCount + 1 })
  | .spawnError m =>
    (.thrown ("Failed to run stop script: " ++ m),
     { s with sstProcess := none, logStream := false })

/-! ## Workflow orchestrator (mcp-server.ts, `sstRestartForInfra`)

Each step's awaited sub-operation either resolves with a text or throws a
message; the workflow is a function of those step outcomes. -/

inductive StepOutcome where
  | ok (text : String)
  | err (msg : String)
  deriving DecidableEq, Repr

/-- JavaScript `x || dflt` on strings: the default replaces an empty
string. -/
def orDefault (t dflt : String) : String :=
  if t = "" then dflt else t

/-- The line the workflow appends for the stop step: the stop result on
success; on failure, a benign skip note when the message indicates the
process was not running, otherwise a warning (the workflow continues
either way). -/
def stopStepEntry (o : StepOutcome) : String :=
  match o with
  | .ok t => "  ✓ " ++ orDefault t "stopped"
  | .err m =>
    if jsIncludes m "not running" || jsIncludes m "no PID" then
      "  ✓ SST dev was not running (skipped stop)"
    else
      "  ⚠ Stop encountered issue: " ++ m ++ " (continuing anyway)"

structure WorkflowRun where
  text : String
  steps : List String
  startAttempted : Bool
  deriving DecidableEq, Repr

/-- `sstRestartForInfra` (mcp-server.ts): stop (failure tolerated), pause,
deploy (failure aborts the workflow with a FAILED outcome and the start
step is never attempted), pause, start (failure reported as "deployed but
restart failed"). -/
def sstRestartForInfra (stage : String) (stopO deployO startO : StepOutcome) : WorkflowRun :=
  let steps1 := ["Step 1: Stopping sst dev...", stopStepEntry stopO,
                 "Step 2: Deploying infrastructure (--stage " ++ stage ++ ")..."]
  match deployO with
  | .err m =>
    let steps := steps1 ++ ["  ✗ Deploy failed: " ++ m]
    { text := "Infrastructure restart workflow FAILED at deploy step.\n\n"
        ++ jsJoin "\n" steps,
      steps := steps, startAttempted := false }
  | .ok dt =>
    let steps2 := steps1 ++ ["  ✓ " ++ orDefault dt "deployed", "Step 3: Restarting sst dev..."]
    match startO with
    | .ok st =>
      let steps := steps2 ++ ["  ✓ " ++ orDefault st "started"]
      { text := "Infrastructure restart workflow completed successfully.\n\n"
          ++ jsJoin "\n" steps,
        steps := steps, startAttempted := true }
    | .err m =>
      let steps := steps2 ++ ["  ✗ Restart failed: " ++ m]
      { text := "Infrastructure deployed but sst dev restart failed.\n\n"
          ++ jsJoin "\n" steps,
        steps := steps, startAttempted := true }

/-! ## Command executor with timeout (mcp-server.ts, `withTimeout` /
`runSSTCommand`)

`runSSTCommand` registers a cancel handler under the key
`` `${operation}-${Date.now()}` `` built at registration time `t0`, and the
timeout callback of `withTimeout` looks the handler up under a key built
with `Date.now()` at firing time `tFire`.  Both times are inputs. -/

def keySet (l : List String) (k : String) : List String :=
  if k ∈ l then l else l ++ [k]

def keyDelete (l : List String) (k : String) : List String :=
  l.filter (fun x => x ≠ k)

def mapDelete (m : List (String × Nat)) (k : String) : List (String × Nat) :=
  m.filter (fun p => p.1 ≠ k)

/-- How the spawned command fares relative to the wall-clock deadline:
close or error event before the deadline, or still pending when the
timeout fires. -/
inductive CmdOutcome where
  | closed (code : Int) (output errorOutput : String)
  | errored (msg : String)
  | pending
  deriving DecidableEq, Repr

structure SSTCommandRun where
  result : ToolOutcome
  sigtermSentTo : List Nat
  handlersAfter : List (String × Nat)
  timeoutsAfter : List String
  deriving DecidableEq, Repr

/-- `runSSTCommand` wrapped in `withTimeout` (mcp-server.ts).  The handler
and timer tables before the call are inputs; `handlersAfter` and
`timeoutsAfter` are their contents at the moment the call resolves or
rejects.  On the timeout path the cancel callback looks up
`operation ++ "-" ++ toString tFire` and kills the found handler's process,
the call rejects with the Timeout message, and `withTimeout`'s catch clears
and deletes the timer. -/
def runSSTCommand (operation : String) (timeoutMs : Nat) (t0 tFire : Nat) (procPid : Nat)
    (outcome : CmdOutcome) (handlers0 : List (String × Nat)) (timeouts0 : List String) :
    SSTCommandRun :=
  let regKey := operation ++ "-" ++ toString t0
  let handlers1 := mapSet handlers0 regKey procPid
  let timeouts1 := keySet timeouts0 operation
  match outcome with
  | .closed code out errOut =>
    let handlers2 := mapDelete handlers1 regKey
    let timeouts2 := keyDelete timeouts1 operation
    if code = 0 then
      { result := .ok (orDefault out (operation ++ " completed successfully")),
        sigtermSentTo := [], handlersAfter := handlers2, timeoutsAfter := timeouts2 }
    else
      { result := .thrown (operation ++ " failed with code " ++ toString code ++ ":\n"
          ++ errOut ++ "\n" ++ out),
        sigtermSentTo := [], handlersAfter := handlers2, timeoutsAfter := timeouts2 }
  | .errored msg =>
    { result := .thrown ("Failed to run " ++ operation ++ ": " ++ msg),
      sigtermSentTo := [], handlersAfter := mapDelete handlers1 regKey,
      timeoutsAfter := keyDelete timeouts1 operation }
  | .pending =>
    let lookupKey := operation ++ "-" ++ toString tFire
    let killed :=
      match mapGet handlers1 lookupKey with
      | some pid => [pid]
      | none => []
    { result := .thrown (operation ++ " timed out after " ++ toString timeoutMs ++ "ms"),
      sigtermSentTo := killed, handlersAfter := handlers1,
      timeoutsAfter := keyDelete timeouts1 operation }

/-! ## Status check (mcp-server.ts, `getSSTStatus`)

File-system faults are oracle booleans; a JavaScript throw is an `Except`
error carrying the error code, caught exactly where the source catches.
The result pairs the reported status view with the PID file's content
after the call. -/

structure StatusWorld where
  pidFile : Option String
  pidFileMtimeMs : Nat
  nowMs : Nat
  logFile : Option String
  livePids : List Int
  readPidFails : Bool
  statFails : Bool
  readLogFails : Bool
  unlinkFails : Bool
  deriving DecidableEq, Repr

structure StatusView where
  running : Bool
  pid : Option Int
  uptime : Option String
  lastLog : Option String
  message : Option String
  deriving DecidableEq, Repr

def notRunningView (msg : String) : StatusView :=
  ⟨false, none, none, none, some msg⟩

def readPidRaw (w : StatusWorld) (content : String) : Except String String :=
  if w.readPidFails then .error "EIO" else .ok content

def unlinkPid (w : StatusWorld) : Except String Unit :=
  if w.unlinkFails then .error "EPERM" else .ok ()

def kill0 (w : StatusWorld) (pid : Int) : Except String Unit :=
  if pid ∈ w.livePids then .ok () else .error "ESRCH"

def statPid (w : StatusWorld) : Except String Nat :=
  if w.statFails then .error "EIO" else .ok w.pidFileMtimeMs

def readLog (w : StatusWorld) (content : String) : Except String String :=
  if w.readLogFails then .error "EIO" else .ok content

/-- `` `${Math.floor(uptime / 60)}m ${uptime % 60}s` `` where `uptime` is
the whole number of seconds since the PID file's mtime. -/
def uptimeString (nowMs mtimeMs : Nat) : String :=
  let uptime := (nowMs - mtimeMs) / 1000
  toString (uptime / 60) ++ "m " ++ toString (uptime % 60) ++ "s"

/-- The final non-blank line of the log, truncated to 200 characters
(`lines[lines.length - 1].substring(0, 200)`). -/
def lastLogLine (content : String) : String :=
  let lines := (jsSplitLines content).filter (fun l => !((jsTrim l).data.isEmpty))
  match lines.getLast? with
  | some l => jsTake 200 l
  | none => "No logs available"

/-- How `existsSync(logPath)` plus the log read fare inside the inner try
block: the missing-log default, a read failure, or the last non-blank
line. -/
def statusLastLog (w : StatusWorld) : Except String String :=
  match w.logFile with
  | none => .ok "No logs available"
  | some lc =>
    match readLog w lc with
    | .error e => .error e
    | .ok raw => .ok (lastLogLine raw)

/-- The inner try block of `getSSTStatus`: liveness probe, stat for
uptime, last log line. -/
def statusInner (w : StatusWorld) (content : String) (pid : Int) :
    Except String (StatusView × Option String) :=
  match kill0 w pid with
  | .error e => .error e
  | .ok _ =>
    match statPid w with
    | .error e => .error e
    | .ok mtime =>
      match statusLastLog w with
      | .error e => .error e
      | .ok lastLog =>
        .ok (⟨true, some pid, some (uptimeString w.nowMs mtime), some lastLog, none⟩,
             some content)

/-- The outer try block of `getSSTStatus`: read and parse the PID file; an
unparseable PID deletes the file and reports it invalid; the inner catch
deletes the file only on ESRCH and reports the process not found. -/
def statusBody (w : StatusWorld) (content : String) :
    Except String (StatusView × Option String) :=
  match readPidRaw w content with
  | .error e => .error e
  | .ok raw =>
    match parseIntJS (jsTrim raw) with
    | none =>
      match unlinkPid w with
      | .error e => .error e
      | .ok _ => .ok (notRunningView "Invalid PID file", none)
    | some pid =>
      match statusInner w content pid with
      | .ok r => .ok r
      | .error e =>
        if e = "ESRCH" then
          match unlinkPid w with
          | .error e2 => .error e2
          | .ok _ => .ok (notRunningView "Process not found", none)
        else .ok (notRunningView "Process not found", some content)

/-- `getSSTStatus` (mcp-server.ts): missing PID file reports not running;
any throw escaping the outer try is caught, a best-effort unlink is
attempted, and a generic not-running view is returned — the function never
raises to its caller. -/
def getSSTStatus (w : StatusWorld) : Except String (StatusView × Option String) :=
  match w.pidFile with
  | none => .ok (notRunningView "SST dev is not running", none)
  | some content =>
    match statusBody w content with
    | .ok r => .ok r
    | .error _ =>
        .ok (notRunningView "Error checking status",
             if w.unlinkFails then some content else none)

/-! ## Helper lemmas -/

/-- Unfolding of `stopSST` on a missing PID file. -/
theorem stopSST_noFile (b0 b1 b2 : Bool) :
    stopSST ⟨none, b0, b1, b2⟩ =
      { exitCode := 0, signals := [], pidFileAfter := none,
        messages := ["SST development process is not running (no PID file found)"] } := rfl

/-! ## Theorems for the claims -/

/-- C1: while the in-memory handle to the supervised dev subprocess is
live, a start request returns the informational already-running response
(not an error), spawns no new subprocess, and leaves the whole server
state — handle, log stream, log file, spawn count — unchanged. -/
theorem C1_start_rejected_while_running (s : McpState) (fault : StartFault)
    (pid : Nat) (ts logPath : String) (h : s.sstProcess.isSome) :
    startSSTDev s fault pid ts logPath =
      (.ok "SST development process is already running. Use stop-sst-dev to stop it first.", s) := by
  obtain ⟨p, hp⟩ := Option.isSome_iff_exists.mp h
  simp [startSSTDev, hp]

/-- Witness for C1 at a concrete running state. -/
theorem C1_start_rejected_while_running_witness :
    (⟨some 7, true, some "log", 1⟩ : McpState).sstProcess.isSome = true ∧
    startSSTDev ⟨some 7, true, some "log", 1⟩ .ok 9 "2024-01-01T00:00:00Z" "/ws/.sst/sst-mcp.log" =
      (.ok "SST development process is already running. Use stop-sst-dev to stop it first.",
       ⟨some 7, true, some "log", 1⟩) :=
  ⟨rfl, C1_start_rejected_while_running _ _ _ _ _ rfl⟩

/-- C2: when the deploy step of the restart-for-infra workflow fails, the
workflow returns the FAILED outcome text built from the accumulated step
log, that log contains the stop step's entry and the deploy failure
message, and the start step is never attempted. -/
theorem C2_workflow_aborts_on_deploy_failure (stage m : String) (stopO startO : StepOutcome) :
    (sstRestartForInfra stage stopO (.err m) startO).startAttempted = false ∧
    stopStepEntry stopO ∈ (sstRestartForInfra stage stopO (.err m) startO).steps ∧
    ("  ✗ Deploy failed: " ++ m) ∈ (sstRestartForInfra stage stopO (.err m) startO).steps ∧
    (sstRestartForInfra stage stopO (.err m) startO).text =
      "Infrastructure restart workflow FAILED at deploy step.\n\n"
        ++ jsJoin "\n" (sstRestartForInfra stage stopO (.err m) startO).steps := by
  simp [sstRestartForInfra]

/-- C3 counterexample: stopping a live PID 100 that resists SIGTERM sends
SIGTERM and SIGKILL to PID 100 only; a descendant process (say PID 101)
receives no signal from the stop script, contradicting the claim that the
graceful termination signal is sent to all descendant processes. -/
theorem C3_counterexample_no_descendant_signal :
    stopSST ⟨some "100", true, true, false⟩ =
      { exitCode := 0,
        signals := [(100, JsSignal.sigterm), (100, JsSignal.sigkill)],
        pidFileAfter := none,
        messages := ["Stopping SST process with PID: 100",
                     "Process did not terminate gracefully, forcing kill...",
                     "SST development process stopped successfully",
                     "PID file cleaned up"] } ∧
    ((101 : Int), JsSignal.sigterm) ∉ (stopSST ⟨some "100", true, true, false⟩).signals :=
  ⟨by decide, by decide⟩

/-- C3 (amended): the stop script signals only the PID recorded in the PID
file — SIGTERM when the initial liveness probe sees it alive, SIGKILL when
it is still alive after the grace period — and when termination cannot be
confirmed at the final verification it exits with code 1 (the StopFailed
report) leaving the PID file in place; the PID file is deleted exactly
when termination is confirmed. -/
theorem C3_stop_signals_recorded_pid_only (w : StopWorld) (content : String) (pid : Int)
    (hfile : w.pidFile = some content) (hpid : parseIntJS (jsTrim content) = some pid) :
    (∀ q s, (q, s) ∈ (stopSST w).signals → q = pid) ∧
    (w.alive0 = true → (pid, JsSignal.sigterm) ∈ (stopSST w).signals) ∧
    (w.alive0 = true → w.alive1 = true → (pid, JsSignal.sigkill) ∈ (stopSST w).signals) ∧
    (w.alive2 = true → (stopSST w).exitCode = 1 ∧ (stopSST w).pidFileAfter = some content ∧
      "Process is still running after kill attempts" ∈ (stopSST w).messages) ∧
    ((stopSST w).pidFileAfter = none ↔ w.alive2 = false) := by
  obtain ⟨pf, a0, a1, a2⟩ := w
  cases hfile
  cases a0 <;> cases a1 <;> cases a2 <;>
    simp_all [stopSST, hpid] <;> tauto

/-- Witness for the amended C3 at a live PID 7 that dies on SIGTERM. -/
theorem C3_stop_signals_recorded_pid_only_witness :
    parseIntJS (jsTrim "7") = some 7 ∧
    ((7 : Int), JsSignal.sigterm) ∈ (stopSST ⟨some "7", true, false, false⟩).signals :=
  ⟨by decide,
   (C3_stop_signals_recorded_pid_only ⟨some "7", true, false, false⟩ "7" 7 rfl (by decide)).2.1 rfl⟩

/-- C4 counterexample: with a stale marker `app.server` in the state
directory, `startProcess` exits with code 1, spawns nothing, and leaves
the marker file in place — refuting the claim that the marker is removed
and the start proceeds. -/
theorem C4_counterexample_marker_aborts_start :
    (startProcess ⟨["app.server"], none⟩ 42 "/ws/.sst").spawned = false ∧
    (startProcess ⟨["app.server"], none⟩ 42 "/ws/.sst").exitCode = some 1 ∧
    (startProcess ⟨["app.server"], none⟩ 42 "/ws/.sst").sstFilesAfter = ["app.server"] ∧
    ¬((startProcess ⟨["app.server"], none⟩ 42 "/ws/.sst").spawned = true ∧
      "app.server" ∉ (startProcess ⟨["app.server"], none⟩ 42 "/ws/.sst").sstFilesAfter) := by
  refine ⟨by decide, by decide, by decide, ?_⟩
  intro hcl
  exact absurd hcl.1 (by decide)

/-- C4 (amended): stale `*.server` marker files are detected before the
dev subprocess is spawned, but a detected marker makes the start abort
with exit code 1 and an error naming the marker, spawning nothing and
removing nothing; only when no marker is present does the start spawn the
subprocess and write the PID file. -/
theorem C4_marker_detected_blocks_start (w : StartScriptWorld) (pid : Nat) (dir : String) :
    (∀ f, w.sstFiles.find? (fun g => jsEndsWith g ".server") = some f →
       (startProcess w pid dir).spawned = false ∧
       (startProcess w pid dir).exitCode = some 1 ∧
       (startProcess w pid dir).sstFilesAfter = w.sstFiles ∧
       (startProcess w pid dir).errorMessage =
         some ("Error: Detected running SST server (file: " ++ dir ++ "/" ++ f
           ++ "). Please stop the running SST server before starting the MCP server.")) ∧
    (w.sstFiles.find? (fun g => jsEndsWith g ".server") = none →
       (startProcess w pid dir).spawned = true ∧
       (startProcess w pid dir).pidFileWritten = some pid ∧
       (startProcess w pid dir).exitCode = none) := by
  constructor
  · intro f hf
    simp [startProcess, hf]
  · intro hf
    simp [startProcess, hf]

/-- Witness for the amended C4 at a directory holding one marker file. -/
theorem C4_marker_detected_blocks_start_witness :
    (["app.server"].find? (fun g => jsEndsWith g ".server") = some "app.server") ∧
    (startProcess ⟨["app.server"], none⟩ 42 "/ws/.sst").spawned = false :=
  ⟨by decide,
   ((C4_marker_detected_blocks_start ⟨["app.server"], none⟩ 42 "/ws/.sst").1
     "app.server" (by decide)).1⟩

/-- C5 (code bug): for a command run through `runSSTCommand` (here
`sst version`, 120000 ms budget, registered at time 1000) that is still
pending at the deadline, the timeout path raises the Timeout error with
the operation name and duration and clears the timer registration, but the
cancel callback rebuilds the lookup key with the firing-time clock value
(121000), misses the handler registered under the key built at 1000, and
therefore sends no SIGTERM — the registered hook is never invoked even
though it is still present in the handler table. -/
theorem C5_timeout_sends_no_sigterm :
    runSSTCommand "version" 120000 1000 121000 555 .pending [] [] =
      { result := .thrown "version timed out after 120000ms",
        sigtermSentTo := [],
        handlersAfter := [("version-1000", 555)],
        timeoutsAfter := [] } := by
  decide

/-- C6: a missing PID file reports not running; a PID file whose PID is
not live reports not running and deletes the PID file; a live PID reports
running with the PID, the uptime string derived from the PID file's mtime,
and the final non-blank log line truncated to 200 characters. -/
theorem C6_status_three_cases (w : StatusWorld) :
    (w.pidFile = none →
       getSSTStatus w = .ok (notRunningView "SST dev is not running", none)) ∧
    (∀ c p, w.pidFile = some c → w.readPidFails = false →
       parseIntJS (jsTrim c) = some p → p ∉ w.livePids → w.unlinkFails = false →
       getSSTStatus w = .ok (notRunningView "Process not found", none)) ∧
    (∀ c p lc, w.pidFile = some c → w.readPidFails = false →
       parseIntJS (jsTrim c) = some p → p ∈ w.livePids → w.statFails = false →
       w.logFile = some lc → w.readLogFails = false →
       getSSTStatus w =
         .ok (⟨true, some p, some (uptimeString w.nowMs w.pidFileMtimeMs),
               some (lastLogLine lc), none⟩, some c)) := by
  refine ⟨?_, ?_, ?_⟩
  · intro h
    simp [getSSTStatus, h]
  · intro c p hc hr hp hlive hu
    simp [getSSTStatus, statusBody, statusInner, readPidRaw, kill0, unlinkPid,
          hc, hr, hp, hlive, hu]
  · intro c p lc hc hr hp hlive hstat hlog hrl
    simp [getSSTStatus, statusBody, statusInner, statusLastLog, readPidRaw, kill0,
          statPid, readLog, hc, hr, hp, hlive, hstat, hlog, hrl]

/-- Witness for C6 at a live PID 321 with a two-line log. -/
theorem C6_status_three_cases_witness :
    parseIntJS (jsTrim "321") = some 321 ∧
    getSSTStatus ⟨some "321", 5000, 65000, some "hello\nworld\n", [321],
        false, false, false, false⟩ =
      .ok (⟨true, some 321, some (uptimeString 65000 5000),
            some (lastLogLine "hello\nworld\n"), none⟩, some "321") :=
  ⟨by decide,
   (C6_status_three_cases _).2.2 "321" 321 "hello\nworld\n" rfl rfl (by decide)
     (by decide) rfl rfl rfl⟩

/-- C7: writing `{FOO: "1", BAR: "two words"}` with the environment-file
writer over a file holding a comment, an unrelated exported variable and
an unrelated lower-case variable, then reading the file back with the
environment-file reader, yields exactly `FOO → 1` and `BAR → two words`
with the quotes stripped, and both pre-existing unrelated variables keep
their values. -/
theorem C7_env_roundtrip :
    parseEnvFile (setSSTEnvContent "# local vars\nexport BAZ=\"3\"\nlower_var='keep'"
        [("FOO", "1"), ("BAR", "two words")]) =
      [("BAZ", "3"), ("lower_var", "keep"), ("FOO", "1"), ("BAR", "two words")] ∧
    envLookup (parseEnvFile (setSSTEnvContent "# local vars\nexport BAZ=\"3\"\nlower_var='keep'"
        [("FOO", "1"), ("BAR", "two words")])) "FOO" = some "1" ∧
    envLookup (parseEnvFile (setSSTEnvContent "# local vars\nexport BAZ=\"3\"\nlower_var='keep'"
        [("FOO", "1"), ("BAR", "two words")])) "BAR" = some "two words" ∧
    envLookup (parseEnvFile (setSSTEnvContent "# local vars\nexport BAZ=\"3\"\nlower_var='keep'"
        [("FOO", "1"), ("BAR", "two words")])) "BAZ" = some "3" ∧
    envLookup (parseEnvFile (setSSTEnvContent "# local vars\nexport BAZ=\"3\"\nlower_var='keep'"
        [("FOO", "1"), ("BAR", "two words")])) "lower_var" = some "keep" := by
  decide

/-- C8: with no live supervised process record — no PID file, or a PID
file whose parsed PID is observed dead at every probe — the stop script
exits 0 with a not-running classification and leaves no PID file behind,
and running it again immediately does the same. -/
theorem C8_stop_idempotent_when_stopped (w : StopWorld)
    (h : w.pidFile = none ∨
         ((w.pidFile.bind (fun c => parseIntJS (jsTrim c))).isSome ∧
          w.alive0 = false ∧ w.alive2 = false)) :
    (stopSST w).exitCode = 0 ∧ notRunningClassified (stopSST w) ∧
    (stopSST w).pidFileAfter = none ∧
    (∀ b0 b1 b2 : Bool,
      (stopSST ⟨(stopSST w).pidFileAfter, b0, b1, b2⟩).exitCode = 0 ∧
      notRunningClassified (stopSST ⟨(stopSST w).pidFileAfter, b0, b1, b2⟩) ∧
      (stopSST ⟨(stopSST w).pidFileAfter, b0, b1, b2⟩).pidFileAfter = none) := by
  obtain ⟨pf, a0, a1, a2⟩ := w
  have hafter : (stopSST ⟨pf, a0, a1, a2⟩).exitCode = 0 ∧
      notRunningClassified (stopSST ⟨pf, a0, a1, a2⟩) ∧
      (stopSST ⟨pf, a0, a1, a2⟩).pidFileAfter = none := by
    rcases h with h | ⟨hsome, h0, h2⟩
    · subst h
      simp [stopSST_noFile, notRunningClassified]
    · subst h0; subst h2
      cases pf with
      | none => simp at hsome
      | some c =>
        obtain ⟨pid, hpid⟩ := Option.isSome_iff_exists.mp hsome
        simp only [Option.some_bind] at hpid
        simp [stopSST, hpid, notRunningClassified]
  refine ⟨hafter.1, hafter.2.1, hafter.2.2, ?_⟩
  intro b0 b1 b2
  rw [hafter.2.2]
  simp [stopSST_noFile, notRunningClassified]

/-- Witness for C8 at a PID file recording the dead PID 55. -/
theorem C8_stop_idempotent_when_stopped_witness :
    (((some "55" : Option String).bind (fun c => parseIntJS (jsTrim c))).isSome ∧
      (false : Bool) = false ∧ (false : Bool) = false) ∧
    (stopSST ⟨some "55", false, false, false⟩).exitCode = 0 :=
  ⟨⟨by decide, rfl, rfl⟩,
   (C8_stop_idempotent_when_stopped ⟨some "55", false, false, false⟩
     (Or.inr ⟨by decide, rfl, rfl⟩)).1⟩

/-- C9: a start whose body throws surfaces the error with the in-memory
handle cleared and the log stream closed, and a stop — whatever the stop
script's outcome, including a failing exit code or a spawn error — leaves
the handle cleared and the log stream closed, so the supervisor is back in
the Stopped configuration and a retry is safe. -/
theorem C9_failure_leaves_stopped (s : McpState) (fault : StartFault) (pid : Nat)
    (ts logPath : String) (o : StopScriptOutcome) :
    ((startSSTDev s fault pid ts logPath).1.isError = true →
       (startSSTDev s fault pid ts logPath).2.sstProcess = none ∧
       (startSSTDev s fault pid ts logPath).2.logStream = false) ∧
    ((stopSSTDev s o).2.sstProcess = none ∧ (stopSSTDev s o).2.logStream = false) := by
  constructor
  · intro h
    cases hsp : s.sstProcess <;> cases fault <;>
      simp_all [startSSTDev, ToolOutcome.isError]
  · cases o <;> simp [stopSSTDev]

/-- Witness for C9 at a failing start from the stopped state. -/
theorem C9_failure_leaves_stopped_witness :
    (startSSTDev ⟨none, false, none, 0⟩ (.beforeLog "boom") 1 "t" "p").1.isError = true ∧
    ((startSSTDev ⟨none, false, none, 0⟩ (.beforeLog "boom") 1 "t" "p").2.sstProcess = none ∧
     (startSSTDev ⟨none, false, none, 0⟩ (.beforeLog "boom") 1 "t" "p").2.logStream = false) :=
  ⟨rfl,
   (C9_failure_leaves_stopped ⟨none, false, none, 0⟩ (.beforeLog "boom") 1 "t" "p"
     (.closed 0 "" "")).1 rfl⟩

/-- C10: a PID file whose content does not parse as an integer makes the
status check delete the file and report not running with the Invalid PID
file message; if the deletion itself fails, the outer catch still reports
not running (Error checking status); and the status check never raises to
its caller on any input. -/
theorem C10_invalid_pid_never_raises (w : StatusWorld) (c : String)
    (hfile : w.pidFile = some c) (hread : w.readPidFails = false)
    (hparse : parseIntJS (jsTrim c) = none) :
    (w.unlinkFails = false →
       getSSTStatus w = .ok (notRunningView "Invalid PID file", none)) ∧
    (w.unlinkFails = true →
       getSSTStatus w = .ok (notRunningView "Error checking status", some c)) ∧
    (∀ w' : StatusWorld, ∃ r, getSSTStatus w' = .ok r) := by
  refine ⟨?_, ?_, ?_⟩
  · intro hu
    simp [getSSTStatus, statusBody, readPidRaw, unlinkPid, hfile, hread, hparse, hu]
  · intro hu
    simp [getSSTStatus, statusBody, readPidRaw, unlinkPid, hfile, hread, hparse, hu]
  · intro w'
    cases hpf : w'.pidFile with
    | none =>
      exact ⟨(notRunningView "SST dev is not running", none), by simp [getSSTStatus, hpf]⟩
    | some c' =>
      cases hb : statusBody w' c' with
      | ok r => exact ⟨r, by simp [getSSTStatus, hpf, hb]⟩
      | error e =>
        exact ⟨(notRunningView "Error checking status",
                if w'.unlinkFails = true then some c' else none),
               by simp [getSSTStatus, hpf, hb]⟩

/-- Witness for C10 at a PID file holding non-numeric content. -/
theorem C10_invalid_pid_never_raises_witness :
    parseIntJS (jsTrim "abc") = none ∧
    getSSTStatus ⟨some "abc", 0, 0, none, [], false, false, false, false⟩ =
      .ok (notRunningView "Invalid PID file", none) :=
  ⟨by decide,
   (C10_invalid_pid_never_raises ⟨some "abc", 0, 0, none, [], false, false, false, false⟩
     "abc" rfl rfl (by decide)).1 rfl⟩

end SSTMCP
